import Mathlib

/-!
Verification of the currency-exchange-service rate-aggregation engine.

Shallow embedding of the Go sources:
  * src/internal/service/rates_service.go  (RatesService.GetRates,
    fetchRatesFromProviders, classifyError, contains, findSubstring,
    and the validating HTTP provider parsers),
  * src/unnamed/part_006                   (the non-validating HTTP provider
    variant: parseGenericResponse et al.),
  * src/internal/models/models.go          (RatesResponse, CacheEntry).

Go strings are Lean Strings (token matching is over ASCII, where bytes and
characters coincide); time.Time / time.Duration are Int (unix-like instants
and second counts); float64 rate values are Rat (no floating arithmetic is
ever performed on them — only presence and emptiness of the mapping matter).
The nondeterminism of the select loop in fetchRatesFromProviders is made
explicit as a trace of events (provider results and context-done signals) in
the order the select statement observes them.
-/

/-- ErrorType mirrors the Go enumeration in rates_service.go lines 17-26. -/
inductive ErrorType where
  | noProviders
  | contextCancelled
  | providerFailed
  | networkError
  | invalidResponse
  | unknown
deriving DecidableEq, Repr

/-- GoErr models a Go error value as seen by classifyError: either a
structured *ServiceError carrying an ErrorType, a message and a cause
(split into two constructors for a nil and a non-nil Cause field), or any
other error, reduced to its message string. -/
inductive GoErr where
  | service (etype : ErrorType) (message : String) (cause : GoErr)
  | serviceNoCause (etype : ErrorType) (message : String)
  | plain (message : String)
deriving DecidableEq, Repr

/-- Rendering of a Go error to its message string. For a ServiceError this
mirrors the Error() method (rates_service.go lines 35-40): the message,
followed by ": " and the rendered cause when a cause is present. -/
def GoErr.render : GoErr → String
  | .plain m => m
  | .serviceNoCause _ m => m
  | .service _ m c => m ++ ": " ++ c.render

/-- findSubstring (rates_service.go lines 79-86): scan every window of the
length of the pattern. The Go loop runs for i from 0 up to
len(s) - len(substr) inclusive, over bytes; for the ASCII tokens used by the
classifier, bytes coincide with characters. -/
def findSubstring (s substr : List Char) : Bool :=
  (List.range (s.length - substr.length + 1)).any
    (fun i => (s.drop i).take substr.length == substr)

/-- contains (rates_service.go lines 69-76), transcribed literally: despite
its doc comment in the source claiming case-insensitivity, every comparison
is an exact byte comparison, so the function is case-sensitive. -/
def contains (s substr : String) : Bool :=
  let a := s.toList
  let b := substr.toList
  decide (b.length ≤ a.length) &&
    (a == b ||
      (decide (b.length < a.length) &&
        (a.take b.length == b ||
          a.drop (a.length - b.length) == b ||
          findSubstring a b)))

/-- classifyError (rates_service.go lines 43-66). A structured ServiceError
answers its Type field; a nil error and any unmatched message answer
Unknown; otherwise the message is matched against the token cascade in the
source's order. -/
def classifyError : Option GoErr → ErrorType
  | none => .unknown
  | some (.service t _ _) => t
  | some (.serviceNoCause t _) => t
  | some (.plain m) =>
    if contains m "context canceled" || contains m "context deadline exceeded" then
      .contextCancelled
    else if contains m "network" || contains m "connection" || contains m "timeout" then
      .networkError
    else if contains m "invalid response" || contains m "parse" then
      .invalidResponse
    else
      .unknown

/-- RatesResponse (models.go lines 5-10). Rate values are Rat stand-ins for
float64; no arithmetic on them is modelled. -/
structure RatesResponse where
  base : String
  timestamp : Int
  rates : List (String × Rat)
  provider : String
deriving DecidableEq, Repr

/-- CacheEntry (models.go lines 27-30): last successful response plus an
absolute expiry instant. -/
structure CacheEntry where
  data : RatesResponse
  expiresAt : Int
deriving DecidableEq, Repr

/-- Go zero value of models.RatesResponse, returned alongside an error by
the Go functions; also what the collection loop would return if it ever
finished with a nil firstError. -/
def zeroRatesResponse : RatesResponse :=
  { base := "", timestamp := 0, rates := [], provider := "" }

/-- Cache lookup step of GetRates (rates_service.go lines 114-120): serve
the cached data when its base equals the requested base verbatim and now is
strictly before the expiry. -/
def cacheCheck (cache : CacheEntry) (now : Int) (base : String) : Option RatesResponse :=
  if cache.data.base = base ∧ now < cache.expiresAt then some cache.data else none

/-- Single-flight key computed by GetRates (rates_service.go line 122):
the literal concatenation, with no case normalization of the base. -/
def inFlightKey (base : String) : String := "rates:" ++ base

/-- strings.ToUpper as used by the HTTP layer's path-parameter handler
(handlers.go line 136) and by the providers' buildURL, restricted to the
ASCII currency codes in play: uppercase every character. -/
def toUpperGo (s : String) : String := String.mk (s.toList.map Char.toUpper)

/-- ServiceError built at rates_service.go lines 177-181 when the request
context is observed cancelled; the cause is requestContext.Err(). -/
def contextCancelledError (cause : GoErr) : GoErr :=
  .service .contextCancelled "request context cancelled" cause

/-- ServiceError built at rates_service.go lines 212-216 wrapping the first
failed provider result. -/
def providerFailedError (cause : GoErr) : GoErr :=
  .service .providerFailed "provider request failed" cause

/-- ServiceError returned at rates_service.go lines 136-139 when no
providers are configured. -/
def noProvidersError : GoErr :=
  .serviceNoCause .noProviders "no exchange rate providers configured"

/-- One observation of the select statement in the collection loop
(rates_service.go lines 174-218): either the request context's Done channel
fired (cause = requestContext.Err()), or one providerResult arrived on the
results channel (data plus optional error, the goroutine's posting at line
166). -/
inductive FetchEvent where
  | cancelled (cause : GoErr)
  | result (data : RatesResponse) (err : Option GoErr)
deriving DecidableEq, Repr

/-- Outcome of one aggregation round. blocked marks a trace too short to
feed every select iteration (the real loop would still be waiting). -/
inductive FetchOutcome where
  | ok (data : RatesResponse)
  | err (e : GoErr)
  | blocked
deriving DecidableEq, Repr

/-- ErrorType carried by a round outcome, when the outcome is a structured
error. -/
def errTypeOf : FetchOutcome → Option ErrorType
  | .err (.service t _ _) => some t
  | .err (.serviceNoCause t _) => some t
  | _ => none

/-- Result-collection loop of fetchRatesFromProviders (rates_service.go
lines 170-223). fuel is the loop bound len(providers); events is the trace
of select observations in order. The cancelled branch sets firstError only
if still nil and then continues the loop (the break in the source exits the
select, not the for). A nil-error result returns at once after writing the
cache with expiry now + ttl; a failed result wraps into firstError if still
nil. When the loop index is exhausted the accumulated firstError is
returned with the cache untouched (the nil-firstError case mirrors the
source's final return of the zero response and nil error, unreachable from
fetchRatesFromProviders). -/
def collectLoop (now ttl : Int) :
    Nat → List FetchEvent → Option GoErr → CacheEntry → FetchOutcome × CacheEntry
  | 0, _, firstError, cache =>
    match firstError with
    | some e => (.err e, cache)
    | none => (.ok zeroRatesResponse, cache)
  | _ + 1, [], _, cache => (.blocked, cache)
  | fuel + 1, .cancelled cause :: rest, firstError, cache =>
    collectLoop now ttl fuel rest (some (firstError.getD (contextCancelledError cause))) cache
  | _ + 1, .result data none :: _, _, _ =>
    (.ok data, { data := data, expiresAt := now + ttl })
  | fuel + 1, .result _ (some e) :: rest, firstError, cache =>
    collectLoop now ttl fuel rest (some (firstError.getD (providerFailedError e))) cache

/-- fetchRatesFromProviders (rates_service.go lines 134-224). providers is
the list of enabled provider names (the factory in src/unnamed/part_000
registers only providers whose config has Enabled set); the concurrency
semaphore bounds parallelism only and never alters which results arrive, so
it has no footprint in the outcome. -/
def fetchRatesFromProviders (providers : List String) (now ttl : Int)
    (events : List FetchEvent) (cache : CacheEntry) : FetchOutcome × CacheEntry :=
  if providers.length = 0 then (.err noProvidersError, cache)
  else collectLoop now ttl providers.length events none cache

/-- GetRates (rates_service.go lines 112-131) for a single caller: the cache
check followed, on a miss, by the single-flight call whose function is one
aggregation round (with one caller, singleflight.Group.Do simply runs the
function). -/
def getRates (providers : List String) (now ttl : Int) (cache : CacheEntry)
    (base : String) (events : List FetchEvent) : FetchOutcome × CacheEntry :=
  match cacheCheck cache now base with
  | some cached => (.ok cached, cache)
  | none => fetchRatesFromProviders providers now ttl events cache

/-- Event is a provider result carrying a non-nil error. -/
def isFailureEvent : FetchEvent → Bool
  | .result _ (some _) => true
  | _ => false

/-- Event is a provider result carrying a nil error. -/
def isSuccessEvent : FetchEvent → Bool
  | .result _ none => true
  | _ => false

/-- Payload shape decoded by parseERAPIResponse in the validating provider
variant (rates_service.go lines 377-382): base_code, time_last_update_unix
and rates. The JSON decoding itself belongs to encoding/json, so the parser
is fed the decode result: the decoder's error, or the decoded payload. -/
structure ERAPIPayload where
  baseCode : String
  timeLastUpdateUnix : Int
  rates : List (String × Rat)
deriving DecidableEq, Repr

/-- Payload shape decoded by the generic parsers (base, timestamp, rates). -/
structure GenericPayload where
  base : String
  timestamp : Int
  rates : List (String × Rat)
deriving DecidableEq, Repr

/-- parseERAPIResponse of the validating provider variant (rates_service.go
lines 377-398): a decode failure propagates the decoder's error unchanged;
a blank base_code or an empty rates mapping fails with the message
"invalid response from " plus the provider name; otherwise the snapshot is
returned with the provider name attached. -/
def parseERAPIResponse (name : String) (decoded : Except GoErr ERAPIPayload) :
    Except GoErr RatesResponse :=
  match decoded with
  | .error e => .error e
  | .ok p =>
    if p.baseCode = "" ∨ p.rates.length = 0 then
      .error (.plain ("invalid response from " ++ name))
    else
      .ok { base := p.baseCode, timestamp := p.timeLastUpdateUnix,
            rates := p.rates, provider := name }

/-- parseGenericResponse of the provider variant in src/unnamed/part_006
(lines 205-222): a decode failure is wrapped with the prefix
"failed to parse generic response: "; a decoded payload is returned as a
success with no validation of the base or the rates mapping at all. -/
def parseGenericResponseUnvalidated (name : String)
    (decoded : Except GoErr GenericPayload) : Except GoErr RatesResponse :=
  match decoded with
  | .error e => .error (.plain ("failed to parse generic response: " ++ e.render))
  | .ok p =>
    .ok { base := p.base, timestamp := p.timestamp, rates := p.rates, provider := name }

/-!
Single-flight model.

Modelled from the spec: the deduplication behaviour of
singleflight.Group.Do (golang.org/x/sync/singleflight, an external
dependency whose source is not part of this repository) as used at
rates_service.go lines 123-125, following spec section 4.2 step 2 and the
design note of section 9: a mutex-guarded map from in-flight key to a
shared completion handle; the first caller for a key becomes the leader and
runs the function (here: one fan-out round), later callers for the same key
attach as waiters, and when the round completes every attached caller
receives the same result and the entry is removed. All events below concern
one key (one base currency), as C2 fixes a single base.
-/

/-- One step of the single-flight protocol for a fixed key: a caller enters
Do for the key, or the in-flight round completes with a result. -/
inductive SFEvent where
  | enter (caller : Nat)
  | complete (result : FetchOutcome)
deriving DecidableEq, Repr

/-- Modelled from the spec: single-flight state for one key — the callers
attached to the in-flight round (leader first) if one is running, the
results delivered to callers so far, and how many fan-out rounds have been
started. -/
structure SFState where
  inflight : Option (List Nat)
  delivered : List (Nat × FetchOutcome)
  fanoutRounds : Nat
deriving DecidableEq, Repr

/-- Initial single-flight state: no round in flight. -/
def sfInit : SFState := { inflight := none, delivered := [], fanoutRounds := 0 }

/-- Modelled from the spec: a caller entering Do starts a round if none is
in flight (becoming its leader) and otherwise attaches to the running
round; a completion delivers the one result to every attached caller and
clears the in-flight entry. A completion with no round in flight cannot
arise and changes nothing. -/
def sfStep (s : SFState) (ev : SFEvent) : SFState :=
  match ev with
  | .enter c =>
    match s.inflight with
    | none => { s with inflight := some [c], fanoutRounds := s.fanoutRounds + 1 }
    | some cs => { s with inflight := some (cs ++ [c]) }
  | .complete r =>
    match s.inflight with
    | none => s
    | some cs =>
      { s with inflight := none,
               delivered := s.delivered ++ cs.map (fun c => (c, r)) }

/-- Run of the single-flight protocol over a trace of events. -/
def sfRun (s : SFState) (evs : List SFEvent) : SFState := evs.foldl sfStep s

/-- Upstream provider calls performed by a number of fan-out rounds: each
round launches exactly one goroutine per enabled provider
(rates_service.go lines 159-168). -/
def providerCallsOfRounds (rounds : Nat) (providers : List String) : Nat :=
  rounds * providers.length

/-! Helper lemmas about the collection loop. -/

/-- A failure event is not a success event. -/
lemma failure_not_success (ev : FetchEvent) (h : isFailureEvent ev = true) :
    isSuccessEvent ev = false := by
  cases ev with
  | cancelled c => rfl
  | result d oe =>
    cases oe with
    | none => simp [isFailureEvent] at h
    | some e => rfl

/-- The loop skips any prefix of failed provider results and returns the
first errorless result, writing it into the cache with expiry now + ttl,
provided the loop bound is not yet exhausted. -/
lemma collectLoop_first_success (now ttl : Int) (data : RatesResponse)
    (rest : List FetchEvent) :
    ∀ (fails : List FetchEvent) (fuel : Nat) (fe : Option GoErr) (cache : CacheEntry),
      (∀ ev ∈ fails, isFailureEvent ev = true) → fails.length < fuel →
      collectLoop now ttl fuel (fails ++ FetchEvent.result data none :: rest) fe cache =
        (.ok data, { data := data, expiresAt := now + ttl }) := by
  intro fails
  induction fails with
  | nil =>
    intro fuel fe cache _ hlt
    cases fuel with
    | zero => exact absurd hlt (Nat.not_lt_zero _)
    | succ f => simp [collectLoop]
  | cons ev evs ih =>
    intro fuel fe cache hf hlt
    have hev : isFailureEvent ev = true := hf ev (List.mem_cons_self _ _)
    cases fuel with
    | zero => exact absurd hlt (Nat.not_lt_zero _)
    | succ f =>
      cases ev with
      | cancelled c => simp [isFailureEvent] at hev
      | result d oe =>
        cases oe with
        | none => simp [isFailureEvent] at hev
        | some e =>
          simp only [List.cons_append, collectLoop]
          exact ih f _ cache (fun x hx => hf x (List.mem_cons_of_mem _ hx))
            (by simpa using Nat.lt_of_succ_lt_succ hlt)

/-- Once firstError is set, a trace with no successful result leaves it as
the round's error and the cache untouched, as long as the loop bound does
not exceed the trace. -/
lemma collectLoop_no_success (now ttl : Int) :
    ∀ (fuel : Nat) (events : List FetchEvent) (e0 : GoErr) (cache : CacheEntry),
      (∀ ev ∈ events, isSuccessEvent ev = false) → fuel ≤ events.length →
      collectLoop now ttl fuel events (some e0) cache = (.err e0, cache) := by
  intro fuel
  induction fuel with
  | zero => intro events e0 cache _ _; simp [collectLoop]
  | succ f ih =>
    intro events e0 cache hns hle
    cases events with
    | nil => exact absurd hle (by simp)
    | cons ev evs =>
      have hev := hns ev (List.mem_cons_self _ _)
      cases ev with
      | cancelled c =>
        simp only [collectLoop, Option.getD]
        exact ih evs e0 cache (fun x hx => hns x (List.mem_cons_of_mem _ hx))
          (by simpa using Nat.le_of_succ_le_succ hle)
      | result d oe =>
        cases oe with
        | none => simp [isSuccessEvent] at hev
        | some e =>
          simp only [collectLoop, Option.getD]
          exact ih evs e0 cache (fun x hx => hns x (List.mem_cons_of_mem _ hx))
            (by simpa using Nat.le_of_succ_le_succ hle)

/-- Shape of every run of the collection loop (excluding the unreachable
start with zero fuel and no recorded error): a success returning the fresh
cache entry, or an error or a blocked wait, both leaving the cache as it
was. -/
lemma collectLoop_cache_shape (now ttl : Int) :
    ∀ (fuel : Nat) (events : List FetchEvent) (fe : Option GoErr) (cache : CacheEntry),
      (fe ≠ none ∨ fuel ≠ 0) →
      (∃ d, collectLoop now ttl fuel events fe cache =
        (.ok d, { data := d, expiresAt := now + ttl })) ∨
      (∃ e, collectLoop now ttl fuel events fe cache = (.err e, cache)) ∨
      collectLoop now ttl fuel events fe cache = (.blocked, cache) := by
  intro fuel
  induction fuel with
  | zero =>
    intro events fe cache h
    rcases h with h | h
    · cases fe with
      | none => exact absurd rfl h
      | some e => exact Or.inr (Or.inl ⟨e, by simp [collectLoop]⟩)
    · exact absurd rfl h
  | succ f ih =>
    intro events fe cache _
    cases events with
    | nil => exact Or.inr (Or.inr (by simp [collectLoop]))
    | cons ev evs =>
      cases ev with
      | cancelled c =>
        simpa only [collectLoop] using
          ih evs (some (fe.getD (contextCancelledError c))) cache (Or.inl (by simp))
      | result d oe =>
        cases oe with
        | none => exact Or.inl ⟨d, by simp [collectLoop]⟩
        | some e =>
          simpa only [collectLoop] using
            ih evs (some (fe.getD (providerFailedError e))) cache (Or.inl (by simp))

/-- Shape of a whole aggregation round: success writes the fresh cache
entry; every error and every blocked wait leaves the cache untouched. -/
lemma fetch_cache_shape (providers : List String) (now ttl : Int)
    (events : List FetchEvent) (cache : CacheEntry) :
    (∃ d, fetchRatesFromProviders providers now ttl events cache =
      (.ok d, { data := d, expiresAt := now + ttl })) ∨
    (∃ e, fetchRatesFromProviders providers now ttl events cache = (.err e, cache)) ∨
    fetchRatesFromProviders providers now ttl events cache = (.blocked, cache) := by
  unfold fetchRatesFromProviders
  by_cases h : providers.length = 0
  · rw [if_pos h]
    exact Or.inr (Or.inl ⟨noProvidersError, rfl⟩)
  · rw [if_neg h]
    exact collectLoop_cache_shape now ttl providers.length events none cache (Or.inr h)

/-- Entering callers while a round is in flight only appends waiters: no
new round starts and nothing is delivered. -/
lemma sfRun_enters (cs : List Nat) :
    ∀ (l : List Nat) (del : List (Nat × FetchOutcome)) (n : Nat),
      sfRun { inflight := some l, delivered := del, fanoutRounds := n }
          (cs.map SFEvent.enter) =
        { inflight := some (l ++ cs), delivered := del, fanoutRounds := n } := by
  induction cs with
  | nil => intro l del n; simp [sfRun]
  | cons c cs ih =>
    intro l del n
    have hstep : sfStep { inflight := some l, delivered := del, fanoutRounds := n }
        (SFEvent.enter c) =
        { inflight := some (l ++ [c]), delivered := del, fanoutRounds := n } := by
      simp [sfStep]
    calc sfRun { inflight := some l, delivered := del, fanoutRounds := n }
            ((c :: cs).map SFEvent.enter)
        = sfRun { inflight := some (l ++ [c]), delivered := del, fanoutRounds := n }
            (cs.map SFEvent.enter) := by
          simp only [List.map_cons, sfRun, List.foldl_cons, hstep]
      _ = { inflight := some ((l ++ [c]) ++ cs), delivered := del, fanoutRounds := n } :=
          ih (l ++ [c]) del n
      _ = { inflight := some (l ++ c :: cs), delivered := del, fanoutRounds := n } := by
          simp

/-! Claim theorems. -/

/-- C1 (amended): a GetRates call is served from the cache exactly when the
cached snapshot's base equals the requested base verbatim — GetRates applies
no case normalization of its own — and now is strictly before the expiry;
the hit returns the cached snapshot and cache unchanged and is independent
of the provider set and of any provider activity (no provider is
contacted); a stale entry (expiry reached) or an entry whose base differs
from the requested string is never served. -/
theorem getRates_cache_hit (providers : List String) (now ttl : Int)
    (cache : CacheEntry) (base : String) (events : List FetchEvent) :
    (cache.data.base = base → now < cache.expiresAt →
      getRates providers now ttl cache base events = (.ok cache.data, cache)) ∧
    (cache.expiresAt ≤ now ∨ cache.data.base ≠ base →
      cacheCheck cache now base = none) := by
  constructor
  · intro h1 h2
    unfold getRates cacheCheck
    rw [if_pos ⟨h1, h2⟩]
  · intro h
    unfold cacheCheck
    rw [if_neg]
    rintro ⟨hb, ht⟩
    rcases h with h | h
    · omega
    · exact h hb

/-- C1 witness: a fresh entry with matching base is returned unchanged with
no provider contacted, and the same entry misses once its expiry is
reached. -/
theorem getRates_cache_hit_witness :
    getRates ["erapi"] 0 60
        { data := { base := "USD", timestamp := 1, rates := [("EUR", (85 : Rat))],
                    provider := "erapi" },
          expiresAt := 100 } "USD" [] =
      (.ok { base := "USD", timestamp := 1, rates := [("EUR", (85 : Rat))],
             provider := "erapi" },
       { data := { base := "USD", timestamp := 1, rates := [("EUR", (85 : Rat))],
                   provider := "erapi" },
         expiresAt := 100 }) ∧
    cacheCheck
        { data := { base := "USD", timestamp := 1, rates := [("EUR", (85 : Rat))],
                    provider := "erapi" },
          expiresAt := 100 } 200 "USD" = none :=
  ⟨(getRates_cache_hit ["erapi"] 0 60 _ "USD" []).1 rfl (by decide),
   (getRates_cache_hit ["erapi"] 200 60 _ "USD" []).2 (Or.inl (by decide))⟩

/-- C1 counterexample: the claim's hit condition holds with case
normalization — the uppercased request "usd" equals the cached base "USD"
and the entry is fresh (0 < 100) — yet the code misses the cache (the
comparison is verbatim) and goes to the providers: the call returns the
provider round's fresh snapshot, not the cached one. -/
theorem getRates_cache_hit_not_case_normalized :
    toUpperGo "usd" =
      (CacheEntry.data
        { data := { base := "USD", timestamp := 1, rates := [("EUR", (85 : Rat))],
                    provider := "erapi" },
          expiresAt := 100 }).base ∧
    (0 : Int) <
      (CacheEntry.expiresAt
        { data := { base := "USD", timestamp := 1, rates := [("EUR", (85 : Rat))],
                    provider := "erapi" },
          expiresAt := 100 }) ∧
    cacheCheck
        { data := { base := "USD", timestamp := 1, rates := [("EUR", (85 : Rat))],
                    provider := "erapi" },
          expiresAt := 100 } 0 "usd" = none ∧
    getRates ["erapi"] 0 60
        { data := { base := "USD", timestamp := 1, rates := [("EUR", (85 : Rat))],
                    provider := "erapi" },
          expiresAt := 100 } "usd"
        [FetchEvent.result
          { base := "USD", timestamp := 2, rates := [("EUR", (84 : Rat))],
            provider := "erapi" } none] =
      (.ok { base := "USD", timestamp := 2, rates := [("EUR", (84 : Rat))],
             provider := "erapi" },
       { data := { base := "USD", timestamp := 2, rates := [("EUR", (84 : Rat))],
                   provider := "erapi" },
         expiresAt := 60 }) := by
  refine ⟨by decide, by decide, by decide, by decide⟩

/-- C10 (amended): the single-flight key is the literal "rates:" followed by
the base exactly as passed to GetRates; it coincides with
"rates:" + uppercase(base) precisely when the base is already uppercase
(which the path-parameter HTTP handler, but not the query-parameter one,
guarantees before calling). -/
theorem inFlightKey_verbatim (base : String) :
    inFlightKey base = "rates:" ++ base ∧
    (toUpperGo base = base → inFlightKey base = "rates:" ++ toUpperGo base) := by
  refine ⟨rfl, ?_⟩
  intro h
  rw [h]
  rfl

/-- C10 witness at an already-uppercase base. -/
theorem inFlightKey_verbatim_witness :
    inFlightKey "USD" = "rates:" ++ "USD" ∧
    inFlightKey "USD" = "rates:" ++ toUpperGo "USD" :=
  ⟨(inFlightKey_verbatim "USD").1, (inFlightKey_verbatim "USD").2 (by decide)⟩

/-- C10 counterexample: for the lower-case base "usd" the key GetRates uses
is "rates:usd", not "rates:" + uppercase("usd") = "rates:USD". -/
theorem inFlightKey_not_uppercased :
    inFlightKey "usd" ≠ "rates:" ++ toUpperGo "usd" := by decide

/-- C9: the code evaluated at the failing input. The error message
"Connection Timeout" would match the "connection"/"timeout" tokens under
the case-insensitive matching that the claim (and the source's own comment
on contains) promises, yielding NetworkError; the implementation compares
bytes exactly, so no token matches and classifyError answers Unknown. The
second conjunct shows the same message in lower case does match. -/
theorem classifyError_case_sensitive :
    classifyError (some (.plain "Connection Timeout")) = ErrorType.unknown ∧
    contains "connection timeout" "timeout" = true ∧
    classifyError (some (.plain "connection timeout")) = ErrorType.networkError := by
  refine ⟨by decide, by decide, by decide⟩

/-- C6: with zero enabled providers, every GetRates call that misses the
cache fails at once with the NoProviders service error, leaving the cache
untouched; the outcome is independent of the event trace, so no provider
is called and no network I/O happens. -/
theorem getRates_no_providers (now ttl : Int) (cache : CacheEntry) (base : String)
    (events : List FetchEvent)
    (hmiss : cacheCheck cache now base = none) :
    getRates [] now ttl cache base events = (.err noProvidersError, cache) := by
  unfold getRates
  rw [hmiss]
  rfl

/-- C6 witness: an empty cache (zero value, expiry 0) misses and the call
fails with NoProviders. -/
theorem getRates_no_providers_witness :
    getRates [] 5 60 { data := zeroRatesResponse, expiresAt := 0 } "USD"
        [FetchEvent.result zeroRatesResponse none] =
      (.err noProvidersError, { data := zeroRatesResponse, expiresAt := 0 }) :=
  getRates_no_providers 5 60 { data := zeroRatesResponse, expiresAt := 0 } "USD"
    [FetchEvent.result zeroRatesResponse none] (by decide)

/-- C3: in a round with at least one enabled provider, if the first
errorless provider result arrives after any number of failed results (and
no context cancellation is observed before it), the round succeeds with
exactly that result — whatever results are still pending are never
consumed — and the successful snapshot is written to the cache with expiry
now + ttl. -/
theorem fetch_first_success (providers : List String) (now ttl : Int)
    (fails : List FetchEvent) (data : RatesResponse) (rest : List FetchEvent)
    (cache : CacheEntry)
    (hf : ∀ ev ∈ fails, isFailureEvent ev = true)
    (hlen : fails.length < providers.length) :
    fetchRatesFromProviders providers now ttl
        (fails ++ FetchEvent.result data none :: rest) cache =
      (.ok data, { data := data, expiresAt := now + ttl }) := by
  unfold fetchRatesFromProviders
  rw [if_neg (by omega)]
  exact collectLoop_first_success now ttl data rest fails providers.length none cache hf hlen

/-- C3 witness: two providers, the first result fails, the second succeeds;
the round returns the success. -/
theorem fetch_first_success_witness :
    fetchRatesFromProviders ["erapi", "frankfurter"] 0 60
        [FetchEvent.result zeroRatesResponse (some (.plain "boom")),
         FetchEvent.result
           { base := "USD", timestamp := 7, rates := [("EUR", (85 : Rat))],
             provider := "frankfurter" } none]
        { data := zeroRatesResponse, expiresAt := 0 } =
      (.ok { base := "USD", timestamp := 7, rates := [("EUR", (85 : Rat))],
             provider := "frankfurter" },
       { data := { base := "USD", timestamp := 7, rates := [("EUR", (85 : Rat))],
                   provider := "frankfurter" },
         expiresAt := 60 }) :=
  fetch_first_success ["erapi", "frankfurter"] 0 60
    [FetchEvent.result zeroRatesResponse (some (.plain "boom"))]
    { base := "USD", timestamp := 7, rates := [("EUR", (85 : Rat))],
      provider := "frankfurter" }
    [] { data := zeroRatesResponse, expiresAt := 0 } (by decide) (by decide)

/-- C4: when every provider result in the round carries an error and no
cancellation is observed, the round fails with the ProviderFailed service
error whose cause is the first failure in arrival order; the later failures
never become the cause, and the cache is untouched. -/
theorem fetch_all_fail_first_error (providers : List String) (now ttl : Int)
    (d0 : RatesResponse) (e0 : GoErr) (rest : List FetchEvent) (cache : CacheEntry)
    (hlen : providers.length = rest.length + 1)
    (hf : ∀ ev ∈ rest, isFailureEvent ev = true) :
    fetchRatesFromProviders providers now ttl
        (FetchEvent.result d0 (some e0) :: rest) cache =
      (.err (providerFailedError e0), cache) := by
  unfold fetchRatesFromProviders
  rw [if_neg (by omega), hlen]
  simp only [collectLoop, Option.getD]
  exact collectLoop_no_success now ttl rest.length rest (providerFailedError e0) cache
    (fun ev hev => failure_not_success ev (hf ev hev)) le_rfl

/-- C4 witness: two providers, both fail; the round's error wraps the first
failure "boom1", not the later "boom2". -/
theorem fetch_all_fail_first_error_witness :
    fetchRatesFromProviders ["erapi", "frankfurter"] 0 60
        [FetchEvent.result zeroRatesResponse (some (.plain "boom1")),
         FetchEvent.result zeroRatesResponse (some (.plain "boom2"))]
        { data := zeroRatesResponse, expiresAt := 0 } =
      (.err (providerFailedError (.plain "boom1")),
       { data := zeroRatesResponse, expiresAt := 0 }) :=
  fetch_all_fail_first_error ["erapi", "frankfurter"] 0 60
    zeroRatesResponse (.plain "boom1")
    [FetchEvent.result zeroRatesResponse (some (.plain "boom2"))]
    { data := zeroRatesResponse, expiresAt := 0 } (by decide) (by decide)

/-- C5 (amended): if the context cancellation is the first observation of
the round — before any provider result at all — and no success arrives
among the later observations, the round fails with the ContextCancelled
service error carrying the context's cancellation cause
(requestContext.Err()), and the cache is untouched. When a provider failure
precedes the cancellation, firstError is already set and the round reports
ProviderFailed instead (see the counterexample). -/
theorem fetch_cancelled_first (providers : List String) (now ttl : Int)
    (cause : GoErr) (rest : List FetchEvent) (cache : CacheEntry)
    (hne : providers.length ≠ 0)
    (hlen : providers.length ≤ rest.length + 1)
    (hns : ∀ ev ∈ rest, isSuccessEvent ev = false) :
    fetchRatesFromProviders providers now ttl
        (FetchEvent.cancelled cause :: rest) cache =
      (.err (contextCancelledError cause), cache) := by
  unfold fetchRatesFromProviders
  rw [if_neg hne]
  obtain ⟨k, hk⟩ : ∃ k, providers.length = k + 1 := ⟨providers.length - 1, by omega⟩
  rw [hk]
  simp only [collectLoop, Option.getD]
  exact collectLoop_no_success now ttl k rest (contextCancelledError cause) cache
    hns (by omega)

/-- C5 witness: one provider, the cancellation fires before its result; the
round fails with ContextCancelled carrying the context's error. -/
theorem fetch_cancelled_first_witness :
    fetchRatesFromProviders ["erapi"] 0 60
        [FetchEvent.cancelled (.plain "context canceled")]
        { data := zeroRatesResponse, expiresAt := 0 } =
      (.err (contextCancelledError (.plain "context canceled")),
       { data := zeroRatesResponse, expiresAt := 0 }) :=
  fetch_cancelled_first ["erapi"] 0 60 (.plain "context canceled") []
    { data := zeroRatesResponse, expiresAt := 0 } (by decide) (by decide)
    (by intro ev hev; simp at hev)

/-- C5 counterexample: two providers; one provider failure arrives, then
the caller's context is cancelled before any success. The claim demands a
ContextCancelled error for every such call; the code keeps the earlier
firstError, so the round reports ProviderFailed wrapping "boom" — its
carried ErrorType is ProviderFailed, not ContextCancelled. -/
theorem fetch_cancelled_after_failure_not_context_cancelled :
    fetchRatesFromProviders ["erapi", "frankfurter"] 0 60
        [FetchEvent.result zeroRatesResponse (some (.plain "boom")),
         FetchEvent.cancelled (.plain "context canceled")]
        { data := zeroRatesResponse, expiresAt := 0 } =
      (.err (providerFailedError (.plain "boom")),
       { data := zeroRatesResponse, expiresAt := 0 }) ∧
    errTypeOf
        (fetchRatesFromProviders ["erapi", "frankfurter"] 0 60
          [FetchEvent.result zeroRatesResponse (some (.plain "boom")),
           FetchEvent.cancelled (.plain "context canceled")]
          { data := zeroRatesResponse, expiresAt := 0 }).1 =
      some ErrorType.providerFailed ∧
    some ErrorType.providerFailed ≠ some ErrorType.contextCancelled := by
  refine ⟨by decide, by decide, by decide⟩

/-- C7: the cache slot is overwritten exactly by a successful aggregation
round — when the round returns the first errorless result d, the cache
afterwards is the entry with snapshot d and expiry now + cacheTTL; whenever
the round returns an error (no providers, all failed, or cancelled) or is
still blocked, the cache is exactly what it was before the call. -/
theorem fetch_cache_write_iff_success (providers : List String) (now ttl : Int)
    (events : List FetchEvent) (cache : CacheEntry) :
    (∀ d, (fetchRatesFromProviders providers now ttl events cache).1 = .ok d →
      (fetchRatesFromProviders providers now ttl events cache).2 =
        { data := d, expiresAt := now + ttl }) ∧
    (∀ e, (fetchRatesFromProviders providers now ttl events cache).1 = .err e →
      (fetchRatesFromProviders providers now ttl events cache).2 = cache) ∧
    ((fetchRatesFromProviders providers now ttl events cache).1 = .blocked →
      (fetchRatesFromProviders providers now ttl events cache).2 = cache) := by
  rcases fetch_cache_shape providers now ttl events cache with
    ⟨d0, heq⟩ | ⟨e0, heq⟩ | heq <;> rw [heq]
  · refine ⟨?_, ?_, ?_⟩
    · intro d h
      have h2 : FetchOutcome.ok d0 = FetchOutcome.ok d := h
      injection h2 with h3
      rw [← h3]
    · intro e h
      exact absurd h (by simp)
    · intro h
      exact absurd h (by simp)
  · refine ⟨?_, ?_, ?_⟩
    · intro d h
      exact absurd h (by simp)
    · intro e h
      rfl
    · intro h
      exact absurd h (by simp)
  · refine ⟨?_, ?_, ?_⟩
    · intro d h
      exact absurd h (by simp)
    · intro e h
      exact absurd h (by simp)
    · intro h
      rfl

/-- C7 witness: a successful round overwrites the cache with the fresh
entry (first conjunct of the theorem applied at a concrete round), and an
all-failed round leaves the cache untouched (second conjunct). -/
theorem fetch_cache_write_iff_success_witness :
    (fetchRatesFromProviders ["erapi"] 0 60
        [FetchEvent.result
          { base := "USD", timestamp := 7, rates := [("EUR", (85 : Rat))],
            provider := "erapi" } none]
        { data := zeroRatesResponse, expiresAt := 3 }).2 =
      { data := { base := "USD", timestamp := 7, rates := [("EUR", (85 : Rat))],
                  provider := "erapi" },
        expiresAt := 60 } ∧
    (fetchRatesFromProviders ["erapi"] 0 60
        [FetchEvent.result zeroRatesResponse (some (.plain "boom"))]
        { data := zeroRatesResponse, expiresAt := 3 }).2 =
      { data := zeroRatesResponse, expiresAt := 3 } :=
  ⟨(fetch_cache_write_iff_success ["erapi"] 0 60
      [FetchEvent.result
        { base := "USD", timestamp := 7, rates := [("EUR", (85 : Rat))],
          provider := "erapi" } none]
      { data := zeroRatesResponse, expiresAt := 3 }).1
      { base := "USD", timestamp := 7, rates := [("EUR", (85 : Rat))],
        provider := "erapi" } (by decide),
   (fetch_cache_write_iff_success ["erapi"] 0 60
      [FetchEvent.result zeroRatesResponse (some (.plain "boom"))]
      { data := zeroRatesResponse, expiresAt := 3 }).2.1
      (providerFailedError (.plain "boom")) (by decide)⟩

/-- C8 (amended): the validating adapter variant enforces the acceptance
invariants — parseERAPIResponse never returns success for a blank base or
empty rates (failing instead with the "invalid response from ..." error,
which classifyError labels InvalidResponse for the erapi provider), every
snapshot it returns has a non-blank base and non-empty rates, and a body
that does not decode as JSON makes it fail with the decoder's own error. -/
theorem parseERAPIResponse_validates :
    (∀ (name : String) (d : Except GoErr ERAPIPayload) (r : RatesResponse),
      parseERAPIResponse name d = .ok r → r.base ≠ "" ∧ r.rates ≠ []) ∧
    (∀ (name : String) (p : ERAPIPayload),
      p.baseCode = "" ∨ p.rates.length = 0 →
      parseERAPIResponse name (.ok p) =
        .error (.plain ("invalid response from " ++ name))) ∧
    (∀ (name : String) (e : GoErr),
      parseERAPIResponse name (.error e) = .error e) ∧
    classifyError (some (.plain "invalid response from erapi")) =
      ErrorType.invalidResponse := by
  refine ⟨?_, ?_, ?_, by decide⟩
  · intro name d r h
    cases d with
    | error e => simp [parseERAPIResponse] at h
    | ok p =>
      have h1 : (if p.baseCode = "" ∨ p.rates.length = 0 then
          (Except.error (GoErr.plain ("invalid response from " ++ name)) :
            Except GoErr RatesResponse)
        else
          Except.ok { base := p.baseCode, timestamp := p.timeLastUpdateUnix,
                      rates := p.rates, provider := name }) = Except.ok r := h
      by_cases hc : p.baseCode = "" ∨ p.rates.length = 0
      · rw [if_pos hc] at h1
        exact absurd h1 (by simp)
      · rw [if_neg hc] at h1
        replace h := h1
        push_neg at hc
        have h2 : ({ base := p.baseCode, timestamp := p.timeLastUpdateUnix,
                     rates := p.rates, provider := name } : RatesResponse) = r := by
          injection h
        rw [← h2]
        refine ⟨hc.1, fun hnil => hc.2 ?_⟩
        have h4 : p.rates = [] := hnil
        rw [h4]
        rfl
  · intro name p hc
    show (if p.baseCode = "" ∨ p.rates.length = 0 then
        (Except.error (GoErr.plain ("invalid response from " ++ name)) :
          Except GoErr RatesResponse)
      else
        Except.ok { base := p.baseCode, timestamp := p.timeLastUpdateUnix,
                    rates := p.rates, provider := name }) =
      Except.error (GoErr.plain ("invalid response from " ++ name))
    rw [if_pos hc]
  · intro name e
    rfl

/-- C8 witness: a well-formed payload yields a snapshot with non-blank base
and non-empty rates, and an empty-rates payload is rejected with the
invalid-response error. -/
theorem parseERAPIResponse_validates_witness :
    (RatesResponse.base { base := "USD", timestamp := 3, rates := [("EUR", (85 : Rat))],
                          provider := "erapi" } ≠ "" ∧
     RatesResponse.rates { base := "USD", timestamp := 3, rates := [("EUR", (85 : Rat))],
                           provider := "erapi" } ≠ []) ∧
    parseERAPIResponse "erapi"
        (.ok { baseCode := "USD", timeLastUpdateUnix := 3, rates := [] }) =
      .error (.plain ("invalid response from " ++ "erapi")) :=
  ⟨parseERAPIResponse_validates.1 "erapi"
      (.ok { baseCode := "USD", timeLastUpdateUnix := 3, rates := [("EUR", (85 : Rat))] })
      { base := "USD", timestamp := 3, rates := [("EUR", (85 : Rat))], provider := "erapi" }
      rfl,
   parseERAPIResponse_validates.2.1 "erapi"
      { baseCode := "USD", timeLastUpdateUnix := 3, rates := [] } (Or.inr rfl)⟩

/-- C8 counterexample: the part_006 adapter variant cited by the claim
performs no validation — fed a decoded body with a blank base and an empty
rates mapping, its parseGenericResponse returns success, contradicting that
such a response always fails with an InvalidResponse error and never
returns success. -/
theorem parseGenericResponseUnvalidated_accepts_empty :
    parseGenericResponseUnvalidated "custom"
        (.ok { base := "", timestamp := 0, rates := [] }) =
      .ok { base := "", timestamp := 0, rates := [], provider := "custom" } := rfl

/-- C2: in the single-flight model, when N (N at least 2) callers for the
same key all enter Do while no earlier flight has completed, exactly one
fan-out round starts — so the upstream provider-call count is the number of
enabled providers, once, not once per caller — and when the round completes
every one of the N callers is delivered that single round's result (be it
success or failure), after which no flight remains for the key. -/
theorem singleflight_one_round (callers : List Nat) (providers : List String)
    (r : FetchOutcome) (h2 : 2 ≤ callers.length) :
    (sfRun sfInit (callers.map SFEvent.enter ++ [SFEvent.complete r])).fanoutRounds = 1 ∧
    providerCallsOfRounds
        (sfRun sfInit (callers.map SFEvent.enter ++ [SFEvent.complete r])).fanoutRounds
        providers = providers.length ∧
    (sfRun sfInit (callers.map SFEvent.enter ++ [SFEvent.complete r])).inflight = none ∧
    ∀ c ∈ callers,
      (c, r) ∈ (sfRun sfInit (callers.map SFEvent.enter ++ [SFEvent.complete r])).delivered := by
  cases callers with
  | nil => simp at h2
  | cons c0 cs =>
    have hrun : sfRun sfInit ((c0 :: cs).map SFEvent.enter ++ [SFEvent.complete r]) =
        { inflight := none, delivered := (c0 :: cs).map (fun c => (c, r)),
          fanoutRounds := 1 } := by
      calc sfRun sfInit ((c0 :: cs).map SFEvent.enter ++ [SFEvent.complete r])
          = sfRun (sfRun sfInit ((c0 :: cs).map SFEvent.enter)) [SFEvent.complete r] := by
            simp [sfRun, List.foldl_append]
        _ = sfRun { inflight := some ([c0] ++ cs), delivered := [], fanoutRounds := 1 }
              [SFEvent.complete r] := by
            have hfirst : sfRun sfInit ((c0 :: cs).map SFEvent.enter) =
                sfRun { inflight := some [c0], delivered := [], fanoutRounds := 1 }
                  (cs.map SFEvent.enter) := by
              simp [sfRun, sfInit, sfStep]
            rw [hfirst, sfRun_enters cs [c0] [] 1]
        _ = { inflight := none, delivered := (c0 :: cs).map (fun c => (c, r)),
              fanoutRounds := 1 } := by
            simp [sfRun, sfStep]
    rw [hrun]
    refine ⟨rfl, by simp [providerCallsOfRounds], rfl, ?_⟩
    intro c hc
    exact List.mem_map_of_mem _ hc

/-- C2 witness: two concurrent callers, one enabled provider; one round
runs, one provider call happens, and both callers receive the round's
result. -/
theorem singleflight_one_round_witness :
    (sfRun sfInit ([0, 1].map SFEvent.enter ++
        [SFEvent.complete (.ok zeroRatesResponse)])).fanoutRounds = 1 ∧
    providerCallsOfRounds
        (sfRun sfInit ([0, 1].map SFEvent.enter ++
          [SFEvent.complete (.ok zeroRatesResponse)])).fanoutRounds ["erapi"] = 1 ∧
    (0, FetchOutcome.ok zeroRatesResponse) ∈
      (sfRun sfInit ([0, 1].map SFEvent.enter ++
        [SFEvent.complete (.ok zeroRatesResponse)])).delivered ∧
    (1, FetchOutcome.ok zeroRatesResponse) ∈
      (sfRun sfInit ([0, 1].map SFEvent.enter ++
        [SFEvent.complete (.ok zeroRatesResponse)])).delivered :=
  ⟨(singleflight_one_round [0, 1] ["erapi"] (.ok zeroRatesResponse) (by decide)).1,
   (singleflight_one_round [0, 1] ["erapi"] (.ok zeroRatesResponse) (by decide)).2.1,
   (singleflight_one_round [0, 1] ["erapi"] (.ok zeroRatesResponse) (by decide)).2.2.2
     0 (by decide),
   (singleflight_one_round [0, 1] ["erapi"] (.ok zeroRatesResponse) (by decide)).2.2.2
     1 (by decide)⟩
